import Mathlib

/-!
Verification development for the clangd LSP client (`clangd.py`).

The embedding models the JSON messages the client exchanges with the peer,
the inbound-dispatch loop (`ClangdClient.__receive_task`, the part that runs
on each framed payload), the outbound drain (`ClangdClient.__send_task`),
the request primitives (`get_id`, `_send`, `send_request`,
`send_notification`, `did_open`), the background-index handshake
(`wait_for_background_index_down`) and the lifecycle operations
(`start`, `stop`).  Python exceptions are modelled by an explicit error
type and `Except`; `asyncio.Queue.get` on an empty queue is modelled by
the `blocked` error (the coroutine suspends and, within one modelled
step, never resumes).
-/

/-- JSON values as produced by `json.loads`.  The messages the client
exchanges never use arrays in the fields the dispatch code inspects, so
arrays are omitted; objects keep insertion order, as Python dicts do. -/
inductive JVal where
  | null : JVal
  | bool (b : Bool) : JVal
  | num (n : Int) : JVal
  | str (s : String) : JVal
  | obj (fields : List (String × JVal)) : JVal
deriving Repr

/-- Errors raised by the modelled Python code. -/
inductive Err where
  | keyError (k : String)
  | typeError (k : String)
  | attributeError (n : String)
  | runtimeError (msg : String)
  | valueError (msg : String)
  | fileNotFound (path : String)
  | blocked
deriving Repr, DecidableEq

/-- Python `d[k]` on a JSON value: `KeyError` when the key is absent,
`TypeError` when the value subscripted is not a dict. -/
def pyGet (o : JVal) (k : String) : Except Err JVal :=
  match o with
  | .obj fs =>
    match fs.lookup k with
    | some v => Except.ok v
    | none => Except.error (Err.keyError k)
  | _ => Except.error (Err.typeError k)

/-- Python `k in d` (membership test on a dict). -/
def containsKey (o : JVal) (k : String) : Bool :=
  match o with
  | .obj fs => (fs.lookup k).isSome
  | _ => false

/-- Python `v == 'lit'` where `v` came out of a parsed JSON dict: equality
holds exactly when `v` is the string literal (comparison of a string with
a value of another type is `False`, not an error). -/
def jeqStr (v : JVal) (s : String) : Bool :=
  match v with
  | .str t => t == s
  | _ => false

mutual

/-- Python `==` on JSON values.  The source only ever compares the scalar
`id` and `method` fields of messages, where Python equality coincides with
this structural equality. -/
def pyEq : JVal → JVal → Bool
  | .null, .null => true
  | .bool a, .bool b => a == b
  | .num a, .num b => a == b
  | .str a, .str b => a == b
  | .obj xs, .obj ys => pyEqFields xs ys
  | _, _ => false

def pyEqFields : List (String × JVal) → List (String × JVal) → Bool
  | [], [] => true
  | (k, v) :: t, (k2, v2) :: t2 => k == k2 && pyEq v v2 && pyEqFields t t2
  | _, _ => false

end

mutual

/-- `json.dumps` with Python's default separators (`, ` and `: `);
string escaping is omitted because no message in this development contains
characters that need it. -/
def dumps : JVal → String
  | .null => "null"
  | .bool true => "true"
  | .bool false => "false"
  | .num n => toString n
  | .str s => "\"" ++ s ++ "\""
  | .obj fs => "\x7b" ++ dumpsFields fs ++ "\x7d"

def dumpsFields : List (String × JVal) → String
  | [] => ""
  | [(k, v)] => "\"" ++ k ++ "\": " ++ dumps v
  | (k, v) :: rest => "\"" ++ k ++ "\": " ++ dumps v ++ ", " ++ dumpsFields rest

end

/-- The two structures `__receive_task` mutates while dispatching one
framed payload: the pending-request ledger (`pending_queue`, a FIFO whose
head is popped on a match) and the delivery queue (`received_queue`,
appended at the tail by `put`). -/
structure DispState where
  pending : List JVal
  received : List JVal
deriving Repr

/-- One iteration of the dispatch part of `ClangdClient.__receive_task`
(clangd.py lines 80-123), applied to the JSON payload the framer produced.
Every dict subscript the Python code performs — including the ones inside
eagerly-evaluated logging f-strings — is modelled, in evaluation order, so
a `KeyError` surfaces exactly where the source would raise.  Dropping a
message leaves the state unchanged. -/
def dispatchOne (st : DispState) (response : JVal) : Except Err DispState :=
  if containsKey response "id" then
    -- `if 0 == len(self.pending_queue)`
    match st.pending with
    | [] =>
      -- line 88: `response['method']` is evaluated unconditionally
      match pyGet response "method" with
      | .error e => .error e
      | .ok m =>
        if jeqStr m "window/workDoneProgress/create" then
          -- short-circuit `and`: `response['params']['token']`
          match pyGet response "params" with
          | .error e => .error e
          | .ok ps =>
            match pyGet ps "token" with
            | .error e => .error e
            | .ok tok =>
              if jeqStr tok "backgroundIndexProgress" then
                .ok { st with received := st.received ++ [response] }
              else
                -- falls through to the drop log (reuses `m`)
                .ok st
        else
          -- `drop response for: {response['method']}` then `continue`
          .ok st
    | request :: restPending =>
      -- line 102: `request['id'] != request['id']` (compares the entry
      -- with itself; always False, but the subscript can still raise)
      match pyGet request "id" with
      | .error e => .error e
      | .ok rid =>
        if pyEq rid rid then
          -- line 106: `'method' in response`
          (match (if containsKey response "method" then
                    -- line 107: `request['method'] != response['method']`
                    match pyGet request "method" with
                    | .error e => .error e
                    | .ok qm =>
                      match pyGet response "method" with
                      | .error e => .error e
                      | .ok rm => .ok (pyEq qm rm)
                  else .ok true : Except Err Bool) with
           | .error e => .error e
           | .ok methodOk =>
             if methodOk then
               -- line 111 log: `request['method']` and `request['id']`
               match pyGet request "method" with
               | .error e => .error e
               | .ok _ =>
                 .ok { pending := restPending,
                       received := st.received ++ [response] }
             else
               -- mismatch: drop, `continue`
               .ok st)
        else
          -- dead branch of the self-comparison; drops the message
          .ok st
  else
    -- no id: line 119 `response['method']`
    match pyGet response "method" with
    | .error e => .error e
    | .ok m =>
      if jeqStr m "$/progress" then
        .ok { st with received := st.received ++ [response] }
      else
        -- `received no id msg`: drop
        .ok st

/-- The fields of `ClangdClient` the modelled operations touch.
`processRunning` stands for `self.process != None`; `hasTasks` records
whether the `receive_task`/`send_task` attributes exist (they are first
created inside `start`, so they are absent on a fresh client);
`clangd_started` is the `asyncio.Event`.  Queues are FIFO lists with the
head at the front; the `opened_files` set keeps insertion order. -/
structure ClientState where
  id : Int
  workspace_path : String
  processRunning : Bool
  hasTasks : Bool
  clangd_started : Bool
  send_queue : List (JVal × Bool)
  pending_queue : List JVal
  received_queue : List JVal
  opened_files : List String
deriving Repr

/-- `ClangdClient.__init__(workspace_path)`: id seeded at 10, no process,
no tasks, everything empty. -/
def initClient (workspace_path : String) : ClientState :=
  { id := 10
    workspace_path := workspace_path
    processRunning := false
    hasTasks := false
    clangd_started := false
    send_queue := []
    pending_queue := []
    received_queue := []
    opened_files := [] }

/-- `ClangdClient.get_id`: increments `self.id`, raises once the id space
is exhausted (negative), returns the new id.  The increment lands before
the check, as in the source. -/
def get_id (st : ClientState) : Except Err (Int × ClientState) :=
  let st' := { st with id := st.id + 1 }
  if st'.id < 0 then
    .error (.runtimeError "id exhausted !")
  else
    .ok (st'.id, st')

/-- The request body `{'jsonrpc': '2.0', **kwargs}` built by
`ClangdClient._send`. -/
def sendBody (kwargs : List (String × JVal)) : JVal :=
  JVal.obj (("jsonrpc", JVal.str "2.0") :: kwargs)

/-- `ClangdClient._send(need_resp, **kwargs)`: raises when the started
event is not set, otherwise enqueues `(request, need_resp)` on the
outbound channel (`send_queue`).  It never touches the pending ledger:
that happens later, in `__send_task`. -/
def clientSend (st : ClientState) (need_resp : Bool)
    (kwargs : List (String × JVal)) : Except Err ClientState :=
  if !st.clangd_started then
    .error (.runtimeError "analyzer is down, please call start_analyzer first")
  else
    .ok { st with send_queue := st.send_queue ++ [(sendBody kwargs, need_resp)] }

/-- `ClangdClient.send_request(method, params)`: evaluates
`self.get_id()` while building the keyword arguments, hands the request to
`_send` with `need_resp = True`, then awaits `self.received_queue.get()`.
The awaited `get` is modelled as taking the head of the delivery queue in
the state the client observes on wake-up: whatever entry is first at that
moment is what the call returns.  An empty queue means the coroutine stays
suspended (`blocked`). -/
def send_request (st : ClientState) (method : String) (params : JVal) :
    Except Err (JVal × ClientState) :=
  match get_id st with
  | .error e => .error e
  | .ok (i, st1) =>
    match clientSend st1 true
        [("method", JVal.str method), ("params", params), ("id", JVal.num i)] with
    | .error e => .error e
    | .ok st2 =>
      match st2.received_queue with
      | [] => .error .blocked
      | resp :: rest => .ok (resp, { st2 with received_queue := rest })

/-- `ClangdClient.send_notification(method, params)`: `_send` without an
id and with `need_resp = False`; returns immediately. -/
def send_notification (st : ClientState) (method : String) (params : JVal) :
    Except Err ClientState :=
  clientSend st false [("method", JVal.str method), ("params", params)]

/-- Observable effects of one `__send_task` iteration, in the order they
happen. -/
inductive SendAction where
  | ledgerAppend (request : JVal)
  | writeBytes (bytes : String)
  | flush
deriving Repr

/-- `f'Content-Length: {len(message)}\r\n\r\n{message}'`. -/
def frameMessage (message : String) : String :=
  "Content-Length: " ++ toString message.length ++ "\r\n\r\n" ++ message

/-- One iteration of `ClangdClient.__send_task` (clangd.py lines 135-154)
on a dequeued `(request, need_resp)` envelope: serialize, frame, and — only
for a request — append the entry to the pending ledger, which the source
does strictly before the `stdin.write`/`flush` calls.  Returns the ordered
action trace and the ledger after the iteration. -/
def send_task_step (pending : List JVal) (item : JVal × Bool) :
    List SendAction × List JVal :=
  let request := item.1
  let need_resp := item.2
  let message := dumps request
  let req := frameMessage message
  if need_resp then
    ([SendAction.ledgerAppend request, SendAction.writeBytes req, SendAction.flush],
     pending ++ [request])
  else
    ([SendAction.writeBytes req, SendAction.flush], pending)

/-- `a` is a `ledgerAppend`. -/
def isLedgerAppend : SendAction → Bool
  | .ledgerAppend _ => true
  | _ => false

/-- `a` is a `writeBytes`. -/
def isWriteBytes : SendAction → Bool
  | .writeBytes _ => true
  | _ => false

/-- In `acts`, some `ledgerAppend` occurs and every `writeBytes` occurs
strictly after the first `ledgerAppend`. -/
def appendPrecedesWrites (acts : List SendAction) : Bool :=
  match acts.findIdx? isLedgerAppend with
  | none => false
  | some i =>
    (List.range acts.length).all fun j =>
      match acts.get? j with
      | some (SendAction.writeBytes _) => decide (i < j)
      | _ => true

/-- The state of the indexing handshake: before the
`window/workDoneProgress/create` request is seen, while `$/progress`
reports stream in, and after the `end` notification. -/
inductive TrackerState where
  | awaitingCreate
  | reporting
  | done
deriving Repr, DecidableEq

/-- Python `int(v)` on a JSON scalar. -/
def pyInt (v : JVal) : Except Err Int :=
  match v with
  | .num n => .ok n
  | .bool true => .ok 1
  | .bool false => .ok 0
  | _ => .error (.valueError "int")

/-- The `while False == done_flag` loop of
`wait_for_background_index_down` (clangd.py lines 269-280), consuming
successive delivery-queue entries.  Returns the final percentage, the
tracker state after each consumed message (appended to `states`), and the
entries left in the queue.  Running out of queued entries before the `end`
notification means the coroutine stays suspended (`blocked`). -/
def progressLoop (msgs : List JVal) (percentage : Int)
    (states : List TrackerState) :
    Except Err (Int × List TrackerState × List JVal) :=
  match msgs with
  | [] => .error .blocked
  | progress :: rest =>
    match pyGet progress "params" with
    | .error e => .error e
    | .ok ps =>
      match pyGet ps "value" with
      | .error e => .error e
      | .ok v =>
        match pyGet v "kind" with
        | .error e => .error e
        | .ok kind =>
          if jeqStr kind "end" then
            .ok (100, states ++ [TrackerState.done], rest)
          else if jeqStr kind "report" then
            match pyGet v "percentage" with
            | .error e => .error e
            | .ok pv =>
              match pyInt pv with
              | .error e => .error e
              | .ok p => progressLoop rest p (states ++ [TrackerState.reporting])
          else
            -- neither kind: loop again with nothing changed
            progressLoop rest percentage (states ++ [TrackerState.reporting])

/-- Result of a successful `wait_for_background_index_down` run: the
acknowledgement envelope handed to `_send`, the tracker state after each
consumed delivery, the final percentage, and the deliveries left over. -/
structure WaitOutcome where
  ack : JVal
  states : List TrackerState
  percentage : Int
  remaining : List JVal
deriving Repr

/-- `ClangdClient.wait_for_background_index_down` (clangd.py lines
255-280), driven by the successive entries `msgs` of the delivery queue;
`started` is the `clangd_started` event consulted by the `_send` that
acknowledges the create request.  The first delivery must be the
`window/workDoneProgress/create` server request — anything else raises —
and it is acknowledged with an envelope carrying the same `id` and a null
result before the progress loop runs. -/
def wait_for_background_index_down (started : Bool) (msgs : List JVal) :
    Except Err WaitOutcome :=
  match msgs with
  | [] => .error .blocked
  | request :: rest =>
    match pyGet request "method" with
    | .error e => .error e
    | .ok m =>
      if !(jeqStr m "window/workDoneProgress/create") then
        .error (.runtimeError "received error request")
      else
        match pyGet request "id" with
        | .error e => .error e
        | .ok rid =>
          if !started then
            .error (.runtimeError "analyzer is down, please call start_analyzer first")
          else
            let ack := sendBody [("id", rid), ("result", JVal.null)]
            match progressLoop rest 0 [TrackerState.reporting] with
            | .error e => .error e
            | .ok (p, states, rem) =>
              .ok { ack := ack, states := states, percentage := p, remaining := rem }

/-- Model of `os.path.abspath` for the already-normalized paths used in
this development: an absolute path (leading `/`) is returned unchanged, a
relative one is resolved against the current working directory. -/
def abspath (cwd : String) (fn : String) : String :=
  match fn.data with
  | '/' :: _ => fn
  | _ => cwd ++ "/" ++ fn

/-- Modelled from the spec: `clangd_utils.fn_to_uri` lives in the
`clangd_utils` module, which is not part of the repository's sources; the
spec declares file-path utilities out of scope (§1).  Any injective
rendering works — no claim depends on the URI's shape. -/
def fn_to_uri (fn : String) : String :=
  "file://" ++ fn

/-- The file system visible to `did_open`: a map from absolute path to
contents. -/
structure FileSystem where
  files : List (String × String)
deriving Repr

/-- `open(file).read()`: the contents, or an error when the path does not
exist. -/
def readFile (fs : FileSystem) (path : String) : Except Err String :=
  match fs.files.lookup path with
  | some c => .ok c
  | none => .error (.fileNotFound path)

/-- The `textDocument/didOpen` parameters built by `did_open`. -/
def didOpenParams (file text : String) : JVal :=
  JVal.obj [("textDocument", JVal.obj
    [ ("uri", JVal.str (fn_to_uri file)),
      ("languageId", JVal.str "c"),
      ("version", JVal.num 1),
      ("text", JVal.str text) ])]

/-- `ClangdClient.did_open(fn)` (clangd.py lines 283-304): computes
`file = os.path.abspath(fn)`, but the already-opened test (`fn in
self.opened_files`) and the membership recorded afterwards
(`self.opened_files.add(fn)`) both use the argument `fn` as given, not the
absolute path.  When the file is not yet recorded, its contents are read
and a `didOpen` notification is enqueued. -/
def did_open (fs : FileSystem) (cwd : String) (st : ClientState)
    (fn : String) : Except Err (String × ClientState) :=
  let file := abspath cwd fn
  if fn ∈ st.opened_files then
    .ok (file, st)
  else
    match readFile fs file with
    | .error e => .error e
    | .ok text =>
      match send_notification st "textDocument/didOpen" (didOpenParams file text) with
      | .error e => .error e
      | .ok st1 =>
        .ok (file, { st1 with opened_files := st1.opened_files ++ [fn] })

/-- `ClangdClient.stop` (clangd.py lines 225-242): cancels the two tasks
(an `AttributeError` when they were never created, i.e. before the first
`start`), calls `terminate` on the process handle (an `AttributeError` on
`None` after a previous `stop`), then resets every piece of connection
state.  The task attributes survive a successful `stop`. -/
def stop (st : ClientState) : Except Err ClientState :=
  if !st.hasTasks then
    .error (.attributeError "receive_task")
  else if !st.processRunning then
    .error (.attributeError "terminate")
  else
    .ok { st with
      processRunning := false
      workspace_path := ""
      opened_files := []
      send_queue := []
      pending_queue := []
      received_queue := []
      clangd_started := false }

/-- Externally visible steps of the modelled prefix of `start`. -/
inductive StartStep where
  | stopped
  | chdir (path : String)
  | spawn (workspace : String)
deriving Repr, DecidableEq

/-- Result of the modelled prefix of `start`: either the early no-op
return, or the launch up to the point where both pipeline tasks run. -/
inductive StartOutcome where
  | noop
  | launched (steps : List StartStep) (st : ClientState)
deriving Repr

/-- The part of `ClangdClient.start(workspace_path)` up to the creation of
the two pipeline tasks (clangd.py lines 174-206): the synchronous
empty-path check comes first, before any I/O; with a live process the call
either returns at once (same workspace) or runs `stop()` (different
workspace); then the workspace is recorded, the working directory changed,
the process spawned, the started event set and the tasks created.  The
initialize/didOpen/indexing sequence that follows exchanges messages with
the spawned peer and is modelled separately (`send_request`, `did_open`,
`wait_for_background_index_down`). -/
def start_prefix (st : ClientState) (workspace_path : String) :
    Except Err StartOutcome :=
  if workspace_path = "" then
    .error (.runtimeError "workspace_path cannot be an empty path")
  else
    match (if st.processRunning then
             if workspace_path ≠ st.workspace_path then
               match stop st with
               | .error e => .error e
               | .ok st1 => .ok (some st1)
             else
               .ok none
           else .ok (some st) : Except Err (Option ClientState)) with
    | .error e => .error e
    | .ok none => .ok StartOutcome.noop
    | .ok (some st1) =>
      let st2 := { st1 with
        workspace_path := workspace_path
        processRunning := true
        clangd_started := true
        hasTasks := true }
      let steps := (if st.processRunning then [StartStep.stopped] else []) ++
        [StartStep.chdir workspace_path, StartStep.spawn workspace_path]
      .ok (StartOutcome.launched steps st2)

/-- The two kinds of events that touch the pending ledger: one
`__send_task` iteration transmitting a dequeued envelope, and one
`__receive_task` iteration dispatching a framed payload. -/
inductive Event where
  | transmit (request : JVal) (needResp : Bool)
  | recv (msg : JVal)

/-- Whether dispatching `msg` in state `st` pops the ledger head — i.e.
the message carries an `id`, the ledger is non-empty, and the head entry
passes the id/method checks of `__receive_task` (with every dict subscript
on that path succeeding). -/
def recvMatches (st : DispState) (msg : JVal) : Bool :=
  containsKey msg "id" &&
  (match st.pending with
   | [] => false
   | request :: _ =>
     (match pyGet request "id" with
      | .error _ => false
      | .ok rid =>
        pyEq rid rid &&
        (match pyGet request "method" with
         | .error _ => false
         | .ok qm =>
           if containsKey msg "method" then
             match pyGet msg "method" with
             | .error _ => false
             | .ok rm => pyEq qm rm
           else true)))

/-- Run a sequence of ledger-touching events from `st`, counting the
requests sent (envelopes transmitted with `needResp = true`) and the
responses matched against the ledger head.  A dispatch error (the
`__receive_task` coroutine dying) aborts the run. -/
def runCount (st : DispState) (sends matched : Nat) :
    List Event → Except Err (Nat × Nat × DispState)
  | [] => .ok (sends, matched, st)
  | Event.transmit request needResp :: rest =>
    runCount { st with pending := (send_task_step st.pending (request, needResp)).2 }
      (if needResp then sends + 1 else sends) matched rest
  | Event.recv msg :: rest =>
    match dispatchOne st msg with
    | .error e => .error e
    | .ok st2 =>
      runCount st2 sends (if recvMatches st msg then matched + 1 else matched) rest

/-- Dispatch state with empty ledger and empty delivery queue. -/
def dispEmpty : DispState :=
  { pending := [], received := [] }

/-- A message that carries an `id` but no `method` — the shape of an
ordinary response arriving while the ledger is empty. -/
def msgIdOnly : JVal :=
  JVal.obj [("id", JVal.num 5)]

/-- The `window/workDoneProgress/create` server request for the
background-index token. -/
def msgCreate : JVal :=
  JVal.obj
    [ ("id", JVal.num 1),
      ("method", JVal.str "window/workDoneProgress/create"),
      ("params", JVal.obj [("token", JVal.str "backgroundIndexProgress")]) ]

/-- A `$/progress` report notification with the given percentage. -/
def progressReport (p : Int) : JVal :=
  JVal.obj
    [ ("method", JVal.str "$/progress"),
      ("params", JVal.obj
        [ ("token", JVal.str "backgroundIndexProgress"),
          ("value", JVal.obj
            [ ("kind", JVal.str "report"),
              ("percentage", JVal.num p) ]) ]) ]

/-- The `$/progress` end notification. -/
def progressEnd : JVal :=
  JVal.obj
    [ ("method", JVal.str "$/progress"),
      ("params", JVal.obj
        [ ("token", JVal.str "backgroundIndexProgress"),
          ("value", JVal.obj [("kind", JVal.str "end")]) ]) ]

/-- Delivery-queue contents for a clean handshake run: the create request,
one report at 40%, then the end notification. -/
def c4Msgs : List JVal :=
  [msgCreate, progressReport 40, progressEnd]

/-- Expected outcome of the clean handshake run. -/
def c4Out : WaitOutcome :=
  { ack := sendBody [("id", JVal.num 1), ("result", JVal.null)]
    states := [TrackerState.reporting, TrackerState.reporting, TrackerState.done]
    percentage := 100
    remaining := [] }

/-- A client that is up, with one `$/progress` notification already
sitting at the head of the delivery queue. -/
def c2St : ClientState :=
  { initClient "/ws" with
    clangd_started := true
    received_queue := [progressReport 40] }

/-- An `initialize` request as `_send` builds it for id 11. -/
def c7Req : JVal :=
  sendBody
    [ ("method", JVal.str "initialize"),
      ("params", JVal.obj []),
      ("id", JVal.num 11) ]

/-- The matching response to `c7Req`. -/
def c7Resp : JVal :=
  JVal.obj [("id", JVal.num 11), ("result", JVal.null)]

/-- Send one request, then receive its response. -/
def c7Events : List Event :=
  [Event.transmit c7Req true, Event.recv c7Resp]

/-- Ledger empty again, response delivered. -/
def c7Final : DispState :=
  { pending := [], received := [c7Resp] }

/-- A one-file file system rooted at `/ws`. -/
def c8FS : FileSystem :=
  { files := [("/ws/a.c", "int x;")] }

/-- A started client with nothing opened yet. -/
def c8St : ClientState :=
  { initClient "/ws" with clangd_started := true }

/-- Open the same file twice, spelled relative then absolute, and report
how many outbound envelopes sit in the send queue after each call. -/
def c8Run : Except Err (Nat × Nat) :=
  match did_open c8FS "/ws" c8St "a.c" with
  | .error e => .error e
  | .ok (_, st1) =>
    match did_open c8FS "/ws" st1 "/ws/a.c" with
    | .error e => .error e
    | .ok (_, st2) => .ok (st1.send_queue.length, st2.send_queue.length)

/-- A client in the running state `start` leaves behind. -/
def runningClient (ws : String) : ClientState :=
  { initClient ws with
    processRunning := true
    hasTasks := true
    clangd_started := true }

/-- The client state a successful `stop` leaves behind: everything reset,
but the task attributes still present. -/
def stoppedClient : ClientState :=
  { initClient "" with hasTasks := true }

/-- A message with an `id` and a method that is not the create request. -/
def msgOther : JVal :=
  JVal.obj [("id", JVal.num 7), ("method", JVal.str "textDocument/definition")]

/-- A notification (no `id`) whose method is not `$/progress`. -/
def msgNotif : JVal :=
  JVal.obj [("method", JVal.str "textDocument/publishDiagnostics")]

/-- The state `send_request` leaves `c2St` in after returning the queued
progress notification. -/
def c2After : ClientState :=
  { c2St with
    id := 11
    send_queue :=
      [(sendBody [("method", JVal.str "workspace/symbol"),
                  ("params", JVal.obj []),
                  ("id", JVal.num 11)], true)]
    received_queue := [] }

@[simp] lemma jeqStr_str (t s : String) : jeqStr (JVal.str t) s = (t == s) :=
  rfl

/-- The state the first `did_open c8FS "/ws" c8St "a.c"` call produces:
one `didOpen` envelope queued, the raw spelling `a.c` recorded. -/
def c8St1 : ClientState :=
  { c8St with
    send_queue :=
      [(sendBody [("method", JVal.str "textDocument/didOpen"),
                  ("params", didOpenParams "/ws/a.c" "int x;")], false)]
    opened_files := ["a.c"] }

lemma jeqStr_eq_false_of_ne {v : JVal} {s : String} (h : v ≠ JVal.str s) :
    jeqStr v s = false := by
  cases v <;> simp [jeqStr]
  rename_i t
  intro ht
  exact h (by rw [ht])

/-- A successful `stop` fully determines the resulting state. -/
lemma stop_ok_fields {st st' : ClientState} (h : stop st = .ok st') :
    st' = { st with
      processRunning := false
      workspace_path := ""
      opened_files := []
      send_queue := []
      pending_queue := []
      received_queue := []
      clangd_started := false } := by
  unfold stop at h
  split at h
  · exact absurd h (by simp)
  · split at h
    · exact absurd h (by simp)
    · injection h with h
      exact h.symm

/-- C10: Calling `stop` when no connection is running — before any
successful `start`, or a second consecutive time after a `stop` — raises
(the task attributes do not exist before the first `start`; the process
handle is `None` after a `stop`) instead of completing as a no-op. -/
theorem C10_stop_not_running :
    (∀ ws, stop (initClient ws) = .error (.attributeError "receive_task")) ∧
    (∀ st st', stop st = .ok st' →
      stop st' = .error (.attributeError "terminate")) := by
  constructor
  · intro ws
    rfl
  · intro st st' h
    have hfields := stop_ok_fields h
    have htasks : st.hasTasks = true := by
      unfold stop at h
      split at h
      · exact absurd h (by simp)
      · rename_i hcond
        simpa using hcond
    subst hfields
    unfold stop
    simp [htasks]

/-- Witness for C10 at concrete states: a fresh client and a client that
was just stopped. -/
theorem C10_stop_not_running_witness :
    stop (initClient "/x") = .error (.attributeError "receive_task") ∧
    stop stoppedClient = .error (.attributeError "terminate") :=
  ⟨C10_stop_not_running.1 "/x",
   C10_stop_not_running.2 (runningClient "/ws") stoppedClient rfl⟩

/-- C9: `start(workspacePath)` raises synchronously on the empty path
before any I/O; with a live process and the same workspace it is a no-op;
with a live process and a different workspace it performs `stop()` before
launching against the new workspace (the launch sees the cleared state,
and the `stopped` step precedes `chdir`/`spawn`). -/
theorem C9_start_preconditions :
    (∀ st, start_prefix st "" =
      .error (.runtimeError "workspace_path cannot be an empty path")) ∧
    (∀ st, st.processRunning = true → st.workspace_path ≠ "" →
      start_prefix st st.workspace_path = .ok StartOutcome.noop) ∧
    (∀ st ws st1, st.processRunning = true → ws ≠ "" →
      ws ≠ st.workspace_path → stop st = .ok st1 →
      ∃ st2, start_prefix st ws = .ok (StartOutcome.launched
          [StartStep.stopped, StartStep.chdir ws, StartStep.spawn ws] st2) ∧
        st2.pending_queue = [] ∧ st2.opened_files = [] ∧
        st2.send_queue = [] ∧ st2.received_queue = [] ∧
        st2.workspace_path = ws ∧ st2.processRunning = true) := by
  refine ⟨fun st => by unfold start_prefix; simp, fun st hrun hne => ?_, ?_⟩
  · unfold start_prefix
    simp [hrun, hne]
  · intro st ws st1 hrun hne hdiff hstop
    have hfields := stop_ok_fields hstop
    refine ⟨{ st1 with
      workspace_path := ws
      processRunning := true
      clangd_started := true
      hasTasks := true }, ?_, ?_, ?_, ?_, ?_, rfl, rfl⟩
    · unfold start_prefix
      simp [hrun, hne, hdiff, hstop]
    · rw [hfields]
    · rw [hfields]
    · rw [hfields]
    · rw [hfields]

/-- Witness for C9 at concrete states: empty path, same workspace,
different workspace. -/
theorem C9_start_preconditions_witness :
    start_prefix (initClient "") "" =
      .error (.runtimeError "workspace_path cannot be an empty path") ∧
    start_prefix (runningClient "/ws") "/ws" = .ok StartOutcome.noop ∧
    ∃ st2, start_prefix (runningClient "/ws") "/other" =
        .ok (StartOutcome.launched
          [StartStep.stopped, StartStep.chdir "/other", StartStep.spawn "/other"]
          st2) ∧
      st2.pending_queue = [] ∧ st2.opened_files = [] ∧
      st2.send_queue = [] ∧ st2.received_queue = [] ∧
      st2.workspace_path = "/other" ∧ st2.processRunning = true :=
  ⟨C9_start_preconditions.1 (initClient ""),
   C9_start_preconditions.2.1 (runningClient "/ws") rfl (by decide),
   C9_start_preconditions.2.2 (runningClient "/ws") "/other" stoppedClient
     rfl (by decide) (by decide) rfl⟩

/-- C6: for every envelope with `needsResponse = true`, the `__send_task`
iteration appends the pending entry to the ledger strictly before the
framed bytes are written: the append is the first action of the trace and
every write comes after it. -/
theorem C6_append_before_write (pending : List JVal) (request : JVal) :
    appendPrecedesWrites (send_task_step pending (request, true)).1 = true ∧
    (send_task_step pending (request, true)).2 = pending ++ [request] :=
  ⟨rfl, rfl⟩

/-- C1 (counterexample to the claim as stated): with an empty ledger,
dispatching a message that carries an `id` but no `method` field does not
complete normally — `response['method']` raises a `KeyError`. -/
theorem C1_counterexample :
    containsKey msgIdOnly "id" = true ∧
    dispatchOne dispEmpty msgIdOnly = .error (.keyError "method") :=
  ⟨rfl, rfl⟩

/-- C1 (amended): while the ledger is empty, a message with an `id` and a
`method` field is forwarded to the delivery queue exactly when the method
is `window/workDoneProgress/create` with `params.token` equal to the
background-index token, and dropped (delivery queue unchanged) for any
other method or token; but a message with an `id` and no `method` field
makes dispatch raise a `KeyError` rather than complete normally. -/
theorem C1_empty_ledger_dispatch (st : DispState) (msg : JVal)
    (hpend : st.pending = []) (hid : containsKey msg "id" = true) :
    (∀ m, pyGet msg "method" = .ok m →
      jeqStr m "window/workDoneProgress/create" = false →
      dispatchOne st msg = .ok st) ∧
    (pyGet msg "method" = .ok (JVal.str "window/workDoneProgress/create") →
      ∀ ps tok, pyGet msg "params" = .ok ps → pyGet ps "token" = .ok tok →
        (tok = JVal.str "backgroundIndexProgress" →
          dispatchOne st msg = .ok { st with received := st.received ++ [msg] }) ∧
        (jeqStr tok "backgroundIndexProgress" = false →
          dispatchOne st msg = .ok st)) ∧
    (pyGet msg "method" = .error (.keyError "method") →
      dispatchOne st msg = .error (.keyError "method")) := by
  refine ⟨fun m hm hne => ?_, fun hm ps tok hps htok => ⟨fun htokEq => ?_, fun htokNe => ?_⟩, fun hm => ?_⟩
  · simp [dispatchOne, hid, hpend, hm, hne]
  · subst htokEq
    simp [dispatchOne, hid, hpend, hm, hps, htok]
  · simp [dispatchOne, hid, hpend, hm, hps, htok, htokNe]
  · simp [dispatchOne, hid, hpend, hm]

/-- Witness for C1 (amended) at the three concrete inputs: an ordinary
request-shaped message (dropped), the create request (forwarded), and an
id-only message (KeyError). -/
theorem C1_empty_ledger_dispatch_witness :
    dispatchOne dispEmpty msgOther = .ok dispEmpty ∧
    dispatchOne dispEmpty msgCreate =
      .ok { pending := [], received := [msgCreate] } ∧
    dispatchOne dispEmpty msgIdOnly = .error (.keyError "method") := by
  refine ⟨(C1_empty_ledger_dispatch dispEmpty msgOther rfl rfl).1
      (JVal.str "textDocument/definition") rfl rfl, ?_,
    (C1_empty_ledger_dispatch dispEmpty msgIdOnly rfl rfl).2.2 rfl⟩
  have h := ((C1_empty_ledger_dispatch dispEmpty msgCreate rfl rfl).2.1 rfl
    (JVal.obj [("token", JVal.str "backgroundIndexProgress")])
    (JVal.str "backgroundIndexProgress") rfl rfl).1 rfl
  simpa [dispEmpty] using h

/-- C3 (counterexample to the claim as stated): the framed payload `{}`
(no `id`, no `method`) makes dispatch raise a `KeyError` at
`response['method']` instead of being dropped. -/
theorem C3_counterexample :
    containsKey (JVal.obj []) "id" = false ∧
    dispatchOne dispEmpty (JVal.obj []) = .error (.keyError "method") :=
  ⟨rfl, rfl⟩

/-- C3 (amended): a framed payload with no `id` and a `method` other than
`$/progress` is dropped — dispatch returns normally with the delivery
queue (and ledger) unchanged; but a payload with no `id` and no `method`
field at all, such as `{}`, makes dispatch raise a `KeyError`. -/
theorem C3_no_id_dispatch :
    (∀ (st : DispState) (msg : JVal) (m : JVal),
      containsKey msg "id" = false →
      pyGet msg "method" = .ok m → jeqStr m "$/progress" = false →
      dispatchOne st msg = .ok st) ∧
    (∀ (st : DispState) (msg : JVal),
      containsKey msg "id" = false →
      pyGet msg "method" = .error (.keyError "method") →
      dispatchOne st msg = .error (.keyError "method")) := by
  constructor
  · intro st msg m hid hm hne
    simp [dispatchOne, hid, hm, hne]
  · intro st msg hid hm
    simp [dispatchOne, hid, hm]

/-- Witness for C3 (amended): a diagnostics notification is dropped, and
the bare `{}` payload raises. -/
theorem C3_no_id_dispatch_witness :
    dispatchOne dispEmpty msgNotif = .ok dispEmpty ∧
    dispatchOne dispEmpty (JVal.obj []) = .error (.keyError "method") :=
  ⟨C3_no_id_dispatch.1 dispEmpty msgNotif
      (JVal.str "textDocument/publishDiagnostics") rfl rfl rfl,
   C3_no_id_dispatch.2 dispEmpty (JVal.obj []) rfl rfl⟩

/-- C2 (counterexample to the claim as stated): with a `$/progress`
notification sitting at the head of the delivery queue, `send_request`
returns that notification — a message with no `id` at all — rather than
the response correlated with the id it allocated. -/
theorem C2_counterexample :
    (match send_request c2St "workspace/symbol" (JVal.obj []) with
     | .ok (resp, _) => some resp
     | _ => none) = some (progressReport 40) ∧
    containsKey (progressReport 40) "id" = false :=
  ⟨rfl, rfl⟩

/-- C2 (amended): `send_request` allocates the next id (strictly larger
than the previous one), enqueues the request on the outbound channel
without touching the pending ledger, and returns whichever entry is at the
head of the delivery queue when it wakes — not necessarily the response
correlated with the id it allocated. -/
theorem C2_send_request_behavior (st : ClientState) (method : String)
    (params : JVal) (resp : JVal) (st' : ClientState)
    (h : send_request st method params = .ok (resp, st')) :
    st'.id = st.id + 1 ∧ st.id < st'.id ∧
    st'.pending_queue = st.pending_queue ∧
    st'.send_queue = st.send_queue ++
      [(sendBody [("method", JVal.str method), ("params", params),
                  ("id", JVal.num (st.id + 1))], true)] ∧
    st.received_queue = resp :: st'.received_queue := by
  by_cases hneg : st.id + 1 < 0
  · exfalso
    unfold send_request get_id at h
    simp [hneg] at h
  · by_cases hstart : st.clangd_started
    · cases hq : st.received_queue with
      | nil =>
        exfalso
        unfold send_request get_id clientSend at h
        simp [hneg, hstart, hq] at h
      | cons r rest =>
        unfold send_request get_id clientSend at h
        simp [hneg, hstart, hq] at h
        obtain ⟨hr, hst⟩ := h
        subst hr
        subst hst
        refine ⟨rfl, by show st.id < st.id + 1; omega, rfl, rfl, by simp [hq]⟩
    · exfalso
      unfold send_request get_id clientSend at h
      simp [hneg, hstart] at h

/-- Witness for C2 (amended) at the concrete client `c2St`. -/
theorem C2_send_request_behavior_witness :
    c2After.id = c2St.id + 1 ∧ c2St.id < c2After.id ∧
    c2After.pending_queue = c2St.pending_queue ∧
    c2After.send_queue = c2St.send_queue ++
      [(sendBody [("method", JVal.str "workspace/symbol"),
                  ("params", JVal.obj []),
                  ("id", JVal.num (c2St.id + 1))], true)] ∧
    c2St.received_queue = progressReport 40 :: c2After.received_queue :=
  C2_send_request_behavior c2St "workspace/symbol" (JVal.obj [])
    (progressReport 40) c2After rfl

/-- A successful run of the `$/progress` loop always ends at percentage
100, and its state trail appends some (possibly empty) run of `reporting`
states capped by a single `done`. -/
lemma progressLoop_ok {msgs : List JVal} {p : Int} {acc : List TrackerState}
    {res : Int × List TrackerState × List JVal}
    (h : progressLoop msgs p acc = .ok res) :
    res.1 = 100 ∧ ∃ j, res.2.1 =
      acc ++ (List.replicate j TrackerState.reporting ++ [TrackerState.done]) := by
  obtain ⟨rp, rs, rr⟩ := res
  induction msgs generalizing p acc with
  | nil => simp [progressLoop] at h
  | cons progress rest ih =>
    cases hps : pyGet progress "params" with
    | error e => simp [progressLoop, hps] at h
    | ok ps =>
      cases hv : pyGet ps "value" with
      | error e => simp [progressLoop, hps, hv] at h
      | ok v =>
        cases hk : pyGet v "kind" with
        | error e => simp [progressLoop, hps, hv, hk] at h
        | ok kind =>
          by_cases hend : jeqStr kind "end" = true
          · simp [progressLoop, hps, hv, hk, hend] at h
            obtain ⟨h1, h2, h3⟩ := h
            exact ⟨h1.symm, 0, by simp [← h2]⟩
          · by_cases hrep : jeqStr kind "report" = true
            · cases hpv : pyGet v "percentage" with
              | error e => simp [progressLoop, hps, hv, hk, hend, hrep, hpv] at h
              | ok pv =>
                cases hpi : pyInt pv with
                | error e =>
                  simp [progressLoop, hps, hv, hk, hend, hrep, hpv, hpi] at h
                | ok p2 =>
                  simp [progressLoop, hps, hv, hk, hend, hrep, hpv, hpi] at h
                  obtain ⟨h100, j, hstates⟩ := ih h
                  exact ⟨h100, j + 1, by simpa [List.replicate_succ] using hstates⟩
            · simp [progressLoop, hps, hv, hk, hend, hrep] at h
              obtain ⟨h100, j, hstates⟩ := ih h
              exact ⟨h100, j + 1, by simpa [List.replicate_succ] using hstates⟩

/-- C4: in every successful background-index handshake, the tracker
acknowledges the `window/workDoneProgress/create` server request with an
envelope carrying the same `id` and a null result, transitions
AwaitingCreate → Reporting → Done exactly once (the state trail is a
non-empty run of `reporting` closed by a single final `done`), and the
percentage at Done is 100 regardless of the last reported value. -/
theorem C4_handshake (started : Bool) (msgs : List JVal) (out : WaitOutcome)
    (h : wait_for_background_index_down started msgs = .ok out) :
    (∃ request rest rid, msgs = request :: rest ∧
      pyGet request "id" = .ok rid ∧
      out.ack = sendBody [("id", rid), ("result", JVal.null)]) ∧
    out.percentage = 100 ∧
    ∃ k, out.states =
      List.replicate (k + 1) TrackerState.reporting ++ [TrackerState.done] := by
  cases msgs with
  | nil => simp [wait_for_background_index_down] at h
  | cons request rest =>
    obtain ⟨oack, ostates, opct, orem⟩ := out
    cases hm : pyGet request "method" with
    | error e => simp [wait_for_background_index_down, hm] at h
    | ok m =>
      by_cases hcr : jeqStr m "window/workDoneProgress/create" = true
      · cases hrid : pyGet request "id" with
        | error e =>
          simp [wait_for_background_index_down, hm, hcr, hrid] at h
        | ok rid =>
          cases started with
          | false =>
            simp [wait_for_background_index_down, hm, hcr, hrid] at h
          | true =>
            cases hloop : progressLoop rest 0 [TrackerState.reporting] with
            | error e =>
              simp [wait_for_background_index_down, hm, hcr, hrid, hloop] at h
            | ok triple =>
              obtain ⟨p, states, rem⟩ := triple
              simp [wait_for_background_index_down, hm, hcr, hrid, hloop] at h
              obtain ⟨hack, hstates, hpct, hrem⟩ := h
              obtain ⟨h100, j, hloopStates⟩ := progressLoop_ok hloop
              refine ⟨⟨request, rest, rid, rfl, hrid, ?_⟩, ?_, j, ?_⟩
              · simp [← hack]
              · rw [← hpct]
                exact h100
              · show ostates = _
                rw [← hstates]
                have hls : states = [TrackerState.reporting] ++
                    (List.replicate j TrackerState.reporting ++ [TrackerState.done]) :=
                  hloopStates
                rw [hls]
                simp [List.replicate_succ]
      · simp [wait_for_background_index_down, hm, hcr] at h

/-- Witness for C4: the clean handshake run (create, one report at 40%,
end) produces the null-result acknowledgement for id 1, a single
Reporting → Done transition, and percentage 100. -/
theorem C4_handshake_witness :
    wait_for_background_index_down true c4Msgs = .ok c4Out ∧
    c4Out.percentage = 100 ∧
    ∃ k, c4Out.states =
      List.replicate (k + 1) TrackerState.reporting ++ [TrackerState.done] :=
  ⟨rfl, (C4_handshake true c4Msgs c4Out rfl).2.1,
    (C4_handshake true c4Msgs c4Out rfl).2.2⟩

/-- C5: while the tracker awaits the create request, a first delivery
whose method is anything else — for example a `$/progress` report — makes
the handshake raise the fatal `received error request` error, aborting the
start sequence. -/
theorem C5_awaiting_create_violation (started : Bool) (msgs : List JVal)
    (request : JVal) (rest : List JVal) (m : JVal)
    (hmsgs : msgs = request :: rest)
    (hm : pyGet request "method" = .ok m)
    (hne : m ≠ JVal.str "window/workDoneProgress/create") :
    wait_for_background_index_down started msgs =
      .error (.runtimeError "received error request") := by
  subst hmsgs
  simp only [wait_for_background_index_down]
  rw [hm]
  simp [jeqStr_eq_false_of_ne hne]

/-- Witness for C5: a `$/progress` report with percentage 40 delivered
first aborts the handshake. -/
theorem C5_awaiting_create_violation_witness :
    wait_for_background_index_down true [progressReport 40] =
      .error (.runtimeError "received error request") :=
  C5_awaiting_create_violation true [progressReport 40] (progressReport 40) []
    (JVal.str "$/progress") rfl rfl (by simp)

/-- C8 (counterexample to the claim as stated): opening the same file
twice, spelled `a.c` and then `/ws/a.c` — two spellings resolving to the
same absolute path — transmits two `didOpen` notifications, because the
membership test uses the argument as spelled, not the absolute path. -/
theorem C8_counterexample :
    c8Run = .ok (1, 2) ∧ abspath "/ws" "a.c" = abspath "/ws" "/ws/a.c" :=
  ⟨rfl, rfl⟩

/-- C8 (amended): `did_open` resolves its argument to an absolute path
for the returned value and the notification payload, but keys the
opened-file set on the argument exactly as spelled: repeating a call with
the same spelling is a no-op (so the same spelling twice yields exactly
one `didOpen`), each call sends at most one `didOpen`, and a call whose
argument is already a member changes nothing — while a differently
spelled alias of an open file is announced again. -/
theorem C8_did_open_membership (fs : FileSystem) (cwd : String)
    (st : ClientState) (fn : String) (file : String) (st1 : ClientState)
    (h : did_open fs cwd st fn = .ok (file, st1)) :
    file = abspath cwd fn ∧
    did_open fs cwd st1 fn = .ok (file, st1) ∧
    (st1.send_queue = st.send_queue ∨
     ∃ text, readFile fs file = .ok text ∧
       st1.send_queue = st.send_queue ++
         [(sendBody [("method", JVal.str "textDocument/didOpen"),
                     ("params", didOpenParams file text)], false)]) ∧
    (fn ∈ st.opened_files → st1 = st) := by
  unfold did_open at h
  by_cases hmem : fn ∈ st.opened_files
  · simp only [hmem, if_true] at h
    injection h with h
    injection h with hfile hst
    subst hfile
    subst hst
    refine ⟨rfl, ?_, Or.inl rfl, fun _ => rfl⟩
    unfold did_open
    simp [hmem]
  · simp only [hmem, if_false] at h
    cases hread : readFile fs (abspath cwd fn) with
    | error e =>
      rw [hread] at h
      exact absurd h (by simp)
    | ok text =>
      rw [hread] at h
      unfold send_notification clientSend at h
      by_cases hstart : st.clangd_started
      · simp only [hstart, Bool.not_true, Bool.false_eq_true, if_false] at h
        injection h with h
        injection h with hfile hst
        subst hfile
        subst hst
        refine ⟨rfl, ?_, Or.inr ⟨text, hread, by simp⟩, fun hc => absurd hc hmem⟩
        unfold did_open
        have hmem1 : fn ∈ st.opened_files ++ [fn] := by simp
        simp [hmem1]
      · simp [hstart] at h

/-- A successful dispatch pops the ledger head exactly when the
id/method matching discipline holds (`recvMatches`), and leaves the
ledger untouched otherwise. -/
lemma dispatchOne_ok_pending {st : DispState} {msg : JVal} {st' : DispState}
    (h : dispatchOne st msg = .ok st') :
    st'.pending = if recvMatches st msg then st.pending.tail else st.pending := by
  cases hid : containsKey msg "id" with
  | false =>
    cases hm : pyGet msg "method" with
    | error e => simp [dispatchOne, hid, hm] at h
    | ok m =>
      by_cases hp : jeqStr m "$/progress" = true
      · simp [dispatchOne, hid, hm, hp] at h
        subst h
        simp [recvMatches, hid]
      · simp [dispatchOne, hid, hm, hp] at h
        subst h
        simp [recvMatches, hid]
  | true =>
    cases hpend : st.pending with
    | nil =>
      have hrm : recvMatches st msg = false := by
        simp [recvMatches, hid, hpend]
      cases hm : pyGet msg "method" with
      | error e => simp [dispatchOne, hid, hpend, hm] at h
      | ok m =>
        by_cases hcr : jeqStr m "window/workDoneProgress/create" = true
        · cases hps : pyGet msg "params" with
          | error e => simp [dispatchOne, hid, hpend, hm, hcr, hps] at h
          | ok ps =>
            cases htok : pyGet ps "token" with
            | error e => simp [dispatchOne, hid, hpend, hm, hcr, hps, htok] at h
            | ok tok =>
              by_cases hbg : jeqStr tok "backgroundIndexProgress" = true
              · simp [dispatchOne, hid, hpend, hm, hcr, hps, htok, hbg] at h
                subst h
                simp [hrm, hpend]
              · simp [dispatchOne, hid, hpend, hm, hcr, hps, htok, hbg] at h
                subst h
                simp [hrm, hpend]
        · simp [dispatchOne, hid, hpend, hm, hcr] at h
          subst h
          simp [hrm, hpend]
    | cons request rest =>
      cases hr : pyGet request "id" with
      | error e => simp [dispatchOne, hid, hpend, hr] at h
      | ok rid =>
        by_cases heq : pyEq rid rid = true
        · cases hcm : containsKey msg "method" with
          | true =>
            cases hqm : pyGet request "method" with
            | error e => simp [dispatchOne, hid, hpend, hr, heq, hcm, hqm] at h
            | ok qm =>
              cases hrm2 : pyGet msg "method" with
              | error e =>
                simp [dispatchOne, hid, hpend, hr, heq, hcm, hqm, hrm2] at h
              | ok rm =>
                by_cases hmm : pyEq qm rm = true
                · simp [dispatchOne, hid, hpend, hr, heq, hcm, hqm, hrm2, hmm] at h
                  subst h
                  simp [recvMatches, hid, hpend, hr, heq, hcm, hqm, hrm2, hmm]
                · simp [dispatchOne, hid, hpend, hr, heq, hcm, hqm, hrm2, hmm] at h
                  subst h
                  simp [recvMatches, hid, hpend, hr, heq, hcm, hqm, hrm2, hmm]
          | false =>
            cases hqm : pyGet request "method" with
            | error e => simp [dispatchOne, hid, hpend, hr, heq, hcm, hqm] at h
            | ok qm =>
              simp [dispatchOne, hid, hpend, hr, heq, hcm, hqm] at h
              subst h
              simp [recvMatches, hid, hpend, hr, heq, hcm, hqm]
        · simp [dispatchOne, hid, hpend, hr, heq] at h
          subst h
          simp [recvMatches, hid, hpend, hr, heq]

/-- The running balance: over any successful event run, final ledger size
plus matched count plus initial send count equals final send count plus
initial matched count plus initial ledger size. -/
lemma runCount_balance (events : List Event) :
    ∀ (st : DispState) (s m : Nat) (out : Nat × Nat × DispState),
    runCount st s m events = .ok out →
    out.2.2.pending.length + out.2.1 + s = out.1 + m + st.pending.length := by
  induction events with
  | nil =>
    intro st s m out h
    obtain ⟨os, om, ost⟩ := out
    simp [runCount] at h
    obtain ⟨h1, h2, h3⟩ := h
    subst h1
    subst h2
    subst h3
    show st.pending.length + m + s = s + m + st.pending.length
    omega
  | cons e rest ih =>
    intro st s m out h
    cases e with
    | transmit request needResp =>
      simp only [runCount] at h
      have hb := ih _ _ _ _ h
      cases needResp with
      | true =>
        simp [send_task_step] at hb
        omega
      | false =>
        simp [send_task_step] at hb
        omega
    | recv msg =>
      cases hd : dispatchOne st msg with
      | error e2 => simp [runCount, hd] at h
      | ok st2 =>
        simp only [runCount, hd] at h
        have hb := ih _ _ _ _ h
        have hp := dispatchOne_ok_pending hd
        by_cases hmatch : recvMatches st msg = true
        · simp only [hmatch, if_true] at hb hp
          cases hpe : st.pending with
          | nil =>
            rw [hpe] at hp
            exfalso
            simp [recvMatches, hpe] at hmatch
          | cons a t =>
            rw [hpe] at hp
            simp at hp
            rw [hp] at hb
            simp only [List.length_cons]
            omega
        · simp [hmatch] at hb hp
          rw [hp] at hb
          omega

/-- C7: at every observation point of every valid (error-free) run of
ledger-touching events starting from the empty state, the pending ledger's
size equals the number of requests sent (envelopes transmitted with
`needsResponse = true`) minus the number of responses matched against the
ledger head. -/
theorem C7_ledger_balance (events : List Event) (s m : Nat) (st' : DispState)
    (h : runCount dispEmpty 0 0 events = .ok (s, m, st')) :
    st'.pending.length + m = s := by
  have hb := runCount_balance events dispEmpty 0 0 (s, m, st') h
  simp [dispEmpty] at hb
  omega

/-- Witness for C7: send the `initialize` request (id 11), then receive
its response; one request sent, one response matched, ledger empty. -/
theorem C7_ledger_balance_witness : c7Final.pending.length + 1 = 1 :=
  C7_ledger_balance c7Events 1 1 c7Final rfl


/-- Witness for C8 (amended) at the concrete client `c8St`: the first
open of `a.c` sends one `didOpen`, and repeating the call with the same
spelling is a no-op. -/
theorem C8_did_open_membership_witness :
    "/ws/a.c" = abspath "/ws" "a.c" ∧
    did_open c8FS "/ws" c8St1 "a.c" = .ok ("/ws/a.c", c8St1) ∧
    (c8St1.send_queue = c8St.send_queue ∨
     ∃ text, readFile c8FS "/ws/a.c" = .ok text ∧
       c8St1.send_queue = c8St.send_queue ++
         [(sendBody [("method", JVal.str "textDocument/didOpen"),
                     ("params", didOpenParams "/ws/a.c" text)], false)]) ∧
    ("a.c" ∈ c8St.opened_files → c8St1 = c8St) :=
  C8_did_open_membership c8FS "/ws" c8St "a.c" "/ws/a.c" c8St1 rfl
